import Mathlib

/-!
Shallow embedding of the browser client in static/js/app.js of the
clinical-trials search application, together with proofs about the
behaviour its specification describes.

Modelling conventions, fixed once for the whole file:
* DOM element contents and form values are fields of an explicit AppState
  record; each event handler becomes a pure state-transition function.
* An async handler that awaits one fetch is split at its await point into a
  Pre function (everything before the request; it returns the mid-flight
  state together with the request when one is issued) and a Post function
  (everything after the response), parameterised by the outcome of the
  fetch.  A Run function composes the two for a completed round trip.
* JavaScript strings are Lean Strings; trim, split, parseInt, truthiness
  and toLocaleString are modelled explicitly below on the underlying
  character lists.
* Date.now, used only to mint element ids for chat bubbles, is modelled by
  passing the millisecond reading of each call to the handler as an
  explicit parameter; consecutive calls may fall in the same millisecond,
  in which case two bubbles share one element id and removal by id hits
  the first of them in document order.
* window.alert is modelled by appending the alerted text to an alerts log.
* The HTML fragments assembled for the big success panels of the six agent
  features are abstracted to a Panel value recording which template was
  rendered and with which response data; the error template of
  showAgentError and the small fixed fragments (placeholders, badges) are
  kept as literal strings.  index.html is not part of the excerpt, so only
  the DOM elements that app.js itself reads or writes are modelled.
-/

/-- Whitespace for the purposes of the JavaScript trim operation (the
ASCII whitespace characters plus the non-breaking space, line and
paragraph separators and the byte-order mark; other rare Zs code points
are omitted). -/
def isJsWS (c : Char) : Bool :=
  c == ' ' || c == '\t' || c == '\n' || c == '\r' || c == '\x0b' || c == '\x0c' ||
  c == '\u00A0' || c == '\u2028' || c == '\u2029' || c == '\uFEFF'

/-- Drop leading JavaScript whitespace from a character list. -/
def trimL (l : List Char) : List Char := l.dropWhile isJsWS

/-- Drop trailing JavaScript whitespace from a character list. -/
def trimR (l : List Char) : List Char := (l.reverse.dropWhile isJsWS).reverse

/-- Remove leading and trailing JavaScript whitespace. -/
def trimChars (l : List Char) : List Char := trimR (trimL l)

/-- The JavaScript String.prototype.trim operation. -/
def jsTrim (s : String) : String := ⟨trimChars s.data⟩

/-- Split a character list at every occurrence of the separator, the way
JavaScript String.prototype.split does: separators are not kept, empty
segments are kept, and the empty input yields one empty segment. -/
def splitChars (sep : Char) : List Char → List Char → List String
  | [], acc => [⟨acc.reverse⟩]
  | c :: cs, acc =>
    if c == sep then ⟨acc.reverse⟩ :: splitChars sep cs []
    else splitChars sep cs (c :: acc)

/-- The JavaScript split-on-one-character operation on strings. -/
def jsSplit (s : String) (sep : Char) : List String := splitChars sep s.data []

/-- JavaScript truthiness of a possibly absent string: null, undefined and
the empty string are falsy. -/
def jsStrFalsy : Option String → Bool
  | none => true
  | some t => t == ""

/-- JavaScript truthiness of a possibly absent boolean field. -/
def jsTruthyB : Option Bool → Bool
  | none => false
  | some b => b

/-- The JavaScript idiom (x || d) for a possibly absent string x. -/
def jsOrElse (o : Option String) (d : String) : String :=
  match o with
  | some t => if t == "" then d else t
  | none => d

/-- Interpolating a possibly absent string, as JavaScript renders the
undefined value. -/
def jsToStr (o : Option String) : String := o.getD "undefined"

/-- The JavaScript parseInt applied to a form value: optional leading
whitespace, optional sign, then a longest digit run; no digits gives NaN,
modelled as none. -/
def jsParseInt (s : String) : Option Int :=
  let l := s.data.dropWhile isJsWS
  let sign : Int := if l.head? = some '-' then -1 else 1
  let l := if l.head? = some '-' || l.head? = some '+' then l.tail else l
  let ds := l.takeWhile (fun c => c.isDigit)
  if ds.isEmpty then none
  else some (sign * (ds.foldl (fun a c => a * 10 + (c.toNat - 48)) 0 : Nat))

/-- Insert a comma after every third digit, counting from the least
significant end; the input and output are reversed digit lists. -/
def insertCommas : Nat → List Char → List Char
  | _, [] => []
  | k, c :: cs =>
    if k ≠ 0 ∧ k % 3 = 0 then ',' :: c :: insertCommas (k + 1) cs
    else c :: insertCommas (k + 1) cs

/-- The JavaScript Number.prototype.toLocaleString for integers in an
English locale: digits grouped in threes by commas. -/
def jsToLocaleString (n : Int) : String :=
  let ds := (toString n.natAbs).data
  let grouped := (insertCommas 0 ds.reverse).reverse
  ⟨(if n < 0 then ['-'] else []) ++ grouped⟩

/-- The intervention field of getFilters (app.js lines 206-207): trim the
raw input; an empty trimmed value gives the empty list, otherwise split on
commas, trim each piece and keep only the truthy (nonempty) pieces. -/
def interventionList (raw : String) : List String :=
  if jsTrim raw == "" then []
  else ((jsSplit (jsTrim raw) ',').map jsTrim).filter (fun i => i ≠ "")

/-- Role of one chat bubble appended by addModalMessage or
addSidebarMessage (the type argument of those functions). -/
inductive Role
  | user
  | assistant
  | loading
  deriving DecidableEq

/-- One chat bubble: the element id minted from a Date.now reading, the
displayed text and the role class. -/
structure Msg where
  id : Nat
  text : String
  role : Role
  deriving DecidableEq

/-- A chat log container: an optional placeholder fragment plus the
appended message bubbles. -/
structure Transcript where
  placeholder : Option String
  msgs : List Msg
  deriving DecidableEq

/-- The filter record assembled by getFilters (app.js lines 209-236). -/
structure Filters where
  condition : String
  intervention : List String
  location : String
  status : List String
  studyType : List String
  phase : List String
  sex : String
  ageGroups : List String
  healthyVolunteers : Bool
  hasResults : String
  hasProtocol : Bool
  hasSAP : Bool
  hasICF : Bool
  funderType : List String
  studyStartFrom : String
  studyStartTo : String
  primaryCompletionFrom : String
  primaryCompletionTo : String
  title : String
  outcome : String
  sponsor : String
  nctId : String
  fdaaa801Violation : Bool
  useSemanticSearch : Bool
  page : Int
  per_page : Option Int
  deriving DecidableEq

/-- The search-form controls read by getFilters and cleared by
clearFilters. -/
structure FormState where
  condition : String
  intervention : String
  location : String
  status : List String
  studyType : List String
  phase : List String
  sex : String
  ageGroups : List String
  healthyVolunteers : Bool
  hasResults : String
  hasProtocol : Bool
  hasSAP : Bool
  hasICF : Bool
  funderType : List String
  studyStartFrom : String
  studyStartTo : String
  primaryCompletionFrom : String
  primaryCompletionTo : String
  title : String
  outcome : String
  sponsor : String
  nctId : String
  fdaaa801Violation : Bool
  useSemanticSearch : Bool
  perPage : String
  deriving DecidableEq

/-- identificationModule of a study record. -/
structure IdentificationModule where
  nctId : String
  briefTitle : Option String
  deriving DecidableEq

/-- statusModule of a study record. -/
structure StatusModule where
  overallStatus : String
  deriving DecidableEq

/-- designModule of a study record. -/
structure DesignModule where
  studyType : String
  phases : Option (List String)
  deriving DecidableEq

/-- leadSponsor of the sponsorCollaboratorsModule. -/
structure LeadSponsor where
  name : Option String
  deriving DecidableEq

/-- sponsorCollaboratorsModule of a study record. -/
structure SponsorModule where
  leadSponsor : Option LeadSponsor
  deriving DecidableEq

/-- protocolSection of a study record as displayResults reads it. -/
structure ProtocolSection where
  identificationModule : IdentificationModule
  statusModule : StatusModule
  designModule : DesignModule
  sponsorCollaboratorsModule : Option SponsorModule
  deriving DecidableEq

/-- One element of the results array of a search response. -/
structure Study where
  protocolSection : ProtocolSection
  hasResults : Bool
  deriving DecidableEq

/-- Body of a response from POST /api/search; every field is optional
because the client also has to cope with bodies that lack them. -/
structure SearchData where
  total_pages : Option Int
  total : Option Int
  searchType : Option String
  results : Option (List Study)
  error : Option String
  deriving DecidableEq

/-- Body of a response from POST /api/chat. -/
structure ChatData where
  error : Option String
  answer : Option String
  deriving DecidableEq

/-- Body of a response from POST /api/chat-all. -/
structure ChatAllData where
  error : Option String
  answer : Option String
  info : Option String
  deriving DecidableEq

/-- Body of a response from POST /api/generate-protocol-report. -/
structure ProtocolData where
  error : Option String
  report : Option String
  deriving DecidableEq

/-- terminology_expansion of an agentic-search response. -/
structure TermExpansion where
  synonyms : List String
  related_terms : List String
  abbreviations : List String
  deriving DecidableEq

/-- search_strategy of an agentic-search response. -/
structure SearchStrategy where
  boolean_strategy : String
  priority_terms : List String
  deriving DecidableEq

/-- Body of a response from POST /api/agentic-search. -/
structure AgenticData where
  success : Option Bool
  error : Option String
  terminology_expansion : Option TermExpansion
  search_strategy : Option SearchStrategy
  enhanced_search_terms : Option (List String)
  deriving DecidableEq

/-- The trial header block of the multi-agent responses. -/
structure TrialInfo where
  nct_id : String
  title : String
  deriving DecidableEq

/-- One agent section of the multi-agent responses. -/
structure AgentSection where
  agent : String
  focus_areas : List String
  content : String
  deriving DecidableEq

/-- Body of a response from POST /api/multi-agent-analysis. -/
structure AnalysisData where
  success : Option Bool
  error : Option String
  trial : Option TrialInfo
  agent_analyses : Option (List AgentSection)
  executive_summary : Option String
  deriving DecidableEq

/-- comparisons block of a compare-trials response. -/
structure Comparisons where
  eligibility : String
  design : String
  endpoints : String
  deriving DecidableEq

/-- Body of a response from POST /api/compare-trials. -/
structure CompareData where
  success : Option Bool
  error : Option String
  trials : Option (List TrialInfo)
  comparisons : Option Comparisons
  strategic_synthesis : Option String
  deriving DecidableEq

/-- Body of a response from POST /api/amendment-risk. -/
structure AmendmentData where
  success : Option Bool
  error : Option String
  trial : Option TrialInfo
  agent_analyses : Option (List AgentSection)
  risk_assessment : Option String
  deriving DecidableEq

/-- query block of the design-patterns and soa-composer responses. -/
structure PatternQuery where
  condition : String
  phase : Option String
  trials_analyzed : Int
  deriving DecidableEq

/-- Body of a response from POST /api/design-patterns. -/
structure PatternData where
  success : Option Bool
  error : Option String
  query : Option PatternQuery
  trials_by_phase : Option (List (String × Int))
  agent_analyses : Option (List AgentSection)
  strategic_insights : Option String
  deriving DecidableEq

/-- One reference trial of a soa-composer response. -/
structure RefTrial where
  nct_id : String
  primary_outcome : String
  primary_timeframe : String
  deriving DecidableEq

/-- Body of a response from POST /api/soa-composer. -/
structure SoaData where
  success : Option Bool
  error : Option String
  query : Option PatternQuery
  reference_trials : Option (List RefTrial)
  agent_analyses : Option (List AgentSection)
  complete_soa : Option String
  deriving DecidableEq

/-- Content of one agent result container: either untouched, the loading
fragment of showAgentLoading, the error fragment of showAgentError, or the
success template of the given feature rendered from the given response
data. -/
inductive Panel
  | empty
  | agentLoading
  | agentError (html : String)
  | agenticSuccess (data : AgenticData)
  | analysisSuccess (data : AnalysisData)
  | compareSuccess (data : CompareData)
  | amendmentSuccess (data : AmendmentData)
  | patternSuccess (data : PatternData)
  | soaSuccess (data : SoaData)
  deriving DecidableEq

/-- One button of the pagination container, with its disabled flag and the
page its click handler would request. -/
inductive PagBtn
  | prev (disabled : Bool) (target : Int)
  | page (n : Int) (active : Bool)
  | next (disabled : Bool) (target : Int)
  deriving DecidableEq

/-- Content of the resultsContainer element. -/
inductive ResultsView
  | empty
  | noStudies
  | cards (studies : List Study)
  deriving DecidableEq

/-- Outcome of one awaited fetch plus response.json() round trip: either
some exception was thrown (network failure or JSON parse failure, with the
message of the thrown error), or a parsed body was obtained. -/
inductive FetchOutcome (α : Type)
  | throws (msg : String)
  | ok (data : α)
  deriving DecidableEq

/-- Outcome of the search round trip, which additionally checks
response.ok and throws a Search failed error when it is false. -/
inductive SearchOutcome
  | throws (msg : String)
  | notOk
  | ok (data : SearchData)
  deriving DecidableEq

/-- The request body of POST /api/chat. -/
structure ChatRequest where
  nctId : String
  question : String
  deriving DecidableEq

/-- The request body of POST /api/chat-all. -/
structure ChatAllRequest where
  filters : Filters
  question : String
  advancedMode : Bool
  model : String
  deriving DecidableEq

/-- The request body of POST /api/generate-protocol-report. -/
structure ProtocolRequest where
  condition : String
  intervention : String
  deriving DecidableEq

/-- The request body of POST /api/agentic-search. -/
structure AgenticRequest where
  query : String
  deriving DecidableEq

/-- The request body of the endpoints keyed by one NCT id. -/
structure NctRequest where
  nctId : String
  deriving DecidableEq

/-- The request body of POST /api/compare-trials. -/
structure CompareRequest where
  nctIds : List String
  deriving DecidableEq

/-- The request body of POST /api/design-patterns and /api/soa-composer. -/
structure PatternRequest where
  condition : String
  phase : Option String
  interventionType : Option String
  deriving DecidableEq

/-- The whole client state: the six script-level globals of app.js lines
1-6 plus every DOM element the script reads or writes, and the alert log
of the modelling conventions. -/
structure AppState where
  currentChatStudy : Option String
  currentPage : Int
  totalPages : Option Int
  totalResults : Option Int
  currentFilters : Option Filters
  isAdvancedMode : Bool
  form : FormState
  searchBtnDisabled : Bool
  resultsContainer : ResultsView
  totalCount : String
  pagination : List PagBtn
  advancedWarningShown : Bool
  chatStudyTitle : String
  chatModalVisible : Bool
  chatMessages : Transcript
  chatInput : String
  chatSendDisabled : Bool
  sidebarMessages : Transcript
  sidebarChatInput : String
  sidebarInputDisabled : Bool
  sidebarSendDisabled : Bool
  llmModel : String
  protocolCondition : String
  protocolIntervention : String
  protocolLoadingVisible : Bool
  protocolReportVisible : Bool
  protocolReportContent : String
  protocolBtnDisabled : Bool
  agenticSearchQuery : String
  agenticSearchBtnDisabled : Bool
  agenticSearchResult : Panel
  analysisNctId : String
  analysisBtnDisabled : Bool
  analysisResult : Panel
  compareNct1 : String
  compareNct2 : String
  compareNct3 : String
  compareBtnDisabled : Bool
  compareResult : Panel
  amendmentNctId : String
  amendmentBtnDisabled : Bool
  amendmentResult : Panel
  patternCondition : String
  patternPhase : String
  patternIntervention : String
  patternBtnDisabled : Bool
  patternResult : Panel
  soaCondition : String
  soaPhase : String
  soaIntervention : String
  soaBtnDisabled : Bool
  soaResult : Panel
  alerts : List String
  deriving DecidableEq

/-- Append an alerted message to the alert log (window.alert). -/
def jsAlert (msg : String) (s : AppState) : AppState :=
  { s with alerts := s.alerts ++ [msg] }

/-- addModalMessage (app.js lines 100-116): build the element id from the
given Date.now millisecond reading, append a bubble with the given text
and role to the modal chat container and return the id.  Two calls in the
same millisecond yield bubbles with the same id.  The placeholder fragment
of the modal container is not touched. -/
def addModalMessage (text : String) (role : Role) (t : Nat) (s : AppState) : AppState × Nat :=
  ({ s with
      chatMessages := { s.chatMessages with msgs := s.chatMessages.msgs ++ [⟨t, text, role⟩] } },
   t)

/-- addSidebarMessage (app.js lines 179-202): remove the chat-placeholder
fragment when present, then append a bubble whose element id is built from
the given Date.now reading and return the id. -/
def addSidebarMessage (text : String) (role : Role) (t : Nat) (s : AppState) : AppState × Nat :=
  ({ s with
      sidebarMessages := { placeholder := none
                           msgs := s.sidebarMessages.msgs ++ [⟨t, text, role⟩] } },
   t)

/-- Remove the modal chat bubble with the given element id
(document.getElementById(loadingId).remove(); the first match is
removed). -/
def removeModalMsg (lid : Nat) (s : AppState) : AppState :=
  { s with chatMessages :=
      { s.chatMessages with msgs := s.chatMessages.msgs.eraseP (fun m => m.id == lid) } }

/-- Remove the sidebar chat bubble with the given element id. -/
def removeSidebarMsg (lid : Nat) (s : AppState) : AppState :=
  { s with sidebarMessages :=
      { s.sidebarMessages with msgs := s.sidebarMessages.msgs.eraseP (fun m => m.id == lid) } }

/-- The placeholder fragment openChatModal writes into the modal chat
container (app.js lines 51-56), with the study title interpolated. -/
def modalPlaceholderHtml (title : String) : String :=
  "<div style=\"text-align: center; color: #666; padding: 20px;\"><strong>" ++ title ++
  "</strong><br><br>Ask any question about this study.</div>"

/-- openChatModal (app.js lines 47-57). -/
def openChatModal (nctId title : String) (s : AppState) : AppState :=
  { s with
    currentChatStudy := some nctId
    chatStudyTitle := "Chat about " ++ nctId
    chatModalVisible := true
    chatMessages := { placeholder := some (modalPlaceholderHtml title), msgs := [] } }

/-- closeChatModal (app.js lines 59-62): hide the modal and forget the
current study; the chat container is left as it is. -/
def closeChatModal (s : AppState) : AppState :=
  { s with chatModalVisible := false, currentChatStudy := none }

/-- The part of sendMessage (app.js lines 64-73) before the fetch: read
and trim the input; bail out when the trimmed question or the current
study is falsy; otherwise append the user bubble, clear the input, append
the loading bubble and issue the /api/chat request.  Returns the
mid-flight state and, when a request was issued, the request together with
the loading bubble id.  The parameters t1 and t2 are the Date.now readings
of the two appends; they coincide when both run in one millisecond. -/
def sendMessagePre (t1 t2 : Nat) (s : AppState) : AppState × Option (ChatRequest × Nat) :=
  let question := jsTrim s.chatInput
  if question == "" || jsStrFalsy s.currentChatStudy then (s, none)
  else
    let s1 := (addModalMessage question Role.user t1 s).1
    let s2 := { s1 with chatInput := "" }
    let p := addModalMessage "Analyzing study data..." Role.loading t2 s2
    (p.1, some (⟨s.currentChatStudy.getD "", question⟩, p.2))

/-- The part of sendMessage (app.js lines 85-97) after the fetch: remove
the loading bubble (done on both the try and the catch path), then append
the assistant bubble: the verbatim error with an Error: prefix when the
body has a truthy error field, the answer on success, and the fixed
failure text when the fetch or the JSON parse threw.  The parameter t3 is
the Date.now reading of the assistant append. -/
def sendMessagePost (lid t3 : Nat) (outcome : FetchOutcome ChatData) (s : AppState) : AppState :=
  let s1 := removeModalMsg lid s
  match outcome with
  | FetchOutcome.throws _ =>
    (addModalMessage "Error: Failed to get response." Role.assistant t3 s1).1
  | FetchOutcome.ok data =>
    match data.error with
    | some e =>
      if e == "" then (addModalMessage (jsToStr data.answer) Role.assistant t3 s1).1
      else (addModalMessage ("Error: " ++ e) Role.assistant t3 s1).1
    | none => (addModalMessage (jsToStr data.answer) Role.assistant t3 s1).1

/-- One completed round trip of sendMessage, with the Date.now readings of
the three appends passed in order. -/
def sendMessageRun (t1 t2 t3 : Nat) (outcome : FetchOutcome ChatData) (s : AppState) : AppState :=
  match sendMessagePre t1 t2 s with
  | (s1, none) => s1
  | (s1, some (_, lid)) => sendMessagePost lid t3 outcome s1

/-- The info badge prepended to a sidebar answer when the body carries a
truthy info field (app.js lines 161-163). -/
def infoBadge (info : String) : String :=
  "<div style=\"background: #e3f2fd; border-left: 4px solid #2196f3; padding: 10px; margin-bottom: 10px; font-size: 12px;\"><strong>ℹ️ Analysis Info:</strong> " ++
  info ++ "</div>"

/-- The answer text a successful sidebar response displays (app.js lines
157-167). -/
def sidebarAnswer (data : ChatAllData) : String :=
  let answer := jsToStr data.answer
  match data.info with
  | some info => if info == "" then answer else infoBadge info ++ answer
  | none => answer

/-- The part of sendSidebarMessage (app.js lines 118-149) before the
fetch: bail out when the trimmed question or currentFilters is falsy;
otherwise append the user bubble, clear the input, disable the send button
and the input field, append the loading bubble and issue the /api/chat-all
request. -/
def sendSidebarMessagePre (t1 t2 : Nat) (s : AppState) : AppState × Option (ChatAllRequest × Nat) :=
  let question := jsTrim s.sidebarChatInput
  if question == "" then (s, none)
  else
    match s.currentFilters with
    | none => (s, none)
    | some f =>
      let s1 := (addSidebarMessage question Role.user t1 s).1
      let s2 := { s1 with sidebarChatInput := "" }
      let s3 := { s2 with sidebarSendDisabled := true, sidebarInputDisabled := true }
      let modeText := if s3.isAdvancedMode then "ALL complete study data" else "essential study data"
      let p := addSidebarMessage ("Analyzing " ++ modeText ++ " from filtered studies...") Role.loading t2 s3
      (p.1, some (⟨f, question, s.isAdvancedMode, s.llmModel⟩, p.2))

/-- The part of sendSidebarMessage (app.js lines 151-176) after the fetch:
remove the loading bubble, append the assistant bubble (verbatim error,
answer with optional info badge, or the fixed failure text when the fetch
threw) and, in the finally block, re-enable the send button and the input
field. -/
def sendSidebarMessagePost (lid t3 : Nat) (outcome : FetchOutcome ChatAllData) (s : AppState) : AppState :=
  let s1 := removeSidebarMsg lid s
  let s2 :=
    match outcome with
    | FetchOutcome.throws _ =>
      (addSidebarMessage "Error: Failed to get response." Role.assistant t3 s1).1
    | FetchOutcome.ok data =>
      match data.error with
      | some e =>
        if e == "" then (addSidebarMessage (sidebarAnswer data) Role.assistant t3 s1).1
        else (addSidebarMessage ("Error: " ++ e) Role.assistant t3 s1).1
      | none => (addSidebarMessage (sidebarAnswer data) Role.assistant t3 s1).1
  { s2 with sidebarSendDisabled := false, sidebarInputDisabled := false }

/-- One completed round trip of sendSidebarMessage, with the Date.now
readings of the three appends passed in order. -/
def sendSidebarMessageRun (t1 t2 t3 : Nat) (outcome : FetchOutcome ChatAllData) (s : AppState) : AppState :=
  match sendSidebarMessagePre t1 t2 s with
  | (s1, none) => s1
  | (s1, some (_, lid)) => sendSidebarMessagePost lid t3 outcome s1

/-- getFilters (app.js lines 204-237): collect the form controls into the
filter record, with the intervention text split as interventionList, the
page taken from the currentPage global and per_page parsed with
parseInt. -/
def getFilters (s : AppState) : Filters :=
  { condition := s.form.condition
    intervention := interventionList s.form.intervention
    location := s.form.location
    status := s.form.status
    studyType := s.form.studyType
    phase := s.form.phase
    sex := s.form.sex
    ageGroups := s.form.ageGroups
    healthyVolunteers := s.form.healthyVolunteers
    hasResults := s.form.hasResults
    hasProtocol := s.form.hasProtocol
    hasSAP := s.form.hasSAP
    hasICF := s.form.hasICF
    funderType := s.form.funderType
    studyStartFrom := s.form.studyStartFrom
    studyStartTo := s.form.studyStartTo
    primaryCompletionFrom := s.form.primaryCompletionFrom
    primaryCompletionTo := s.form.primaryCompletionTo
    title := s.form.title
    outcome := s.form.outcome
    sponsor := s.form.sponsor
    nctId := s.form.nctId
    fdaaa801Violation := s.form.fdaaa801Violation
    useSemanticSearch := s.form.useSemanticSearch
    page := s.currentPage
    per_page := jsParseInt s.form.perPage }

/-- The part of searchStudies (app.js lines 239-249) before the fetch: set
the currentPage global to the requested page, rebuild the filter record,
store it in currentFilters for the sidebar chat and issue the /api/search
request.  No control is disabled. -/
def searchPre (page : Int) (s : AppState) : AppState × Filters :=
  let s1 := { s with currentPage := page }
  let f := getFilters s1
  ({ s1 with currentFilters := some f }, f)

/-- displayResults (app.js lines 284-340), abstracted to which content the
results container holds: the no-studies paragraph for an empty array,
otherwise one card per study. -/
def renderResults (results : List Study) : ResultsView :=
  if results.isEmpty then ResultsView.noStudies else ResultsView.cards results

/-- The semantic-search badge appended to the total count (app.js line
259). -/
def semanticBadge : String :=
  " <span style=\"background: #667eea; color: white; padding: 2px 8px; border-radius: 4px; font-size: 11px; margin-left: 5px;\">🚀 AI SEMANTIC</span>"

/-- The totalCount element content written by searchStudies (app.js lines
258-262). -/
def renderTotalCount (searchType : Option String) (total : Int) : String :=
  if searchType == some "semantic" then jsToLocaleString total ++ semanticBadge
  else jsToLocaleString total

/-- The JavaScript comparison (totalResults > 50) where totalResults can
be undefined: a comparison with undefined is false. -/
def jsGtOpt : Option Int → Int → Bool
  | some v, b => decide (b < v)
  | none, _ => false

/-- The numbered page window of displayPagination (app.js lines 354-356):
the integers from max(1, currentPage - 3) to min(totalPages,
currentPage + 3). -/
def pageRange (cp tp : Int) : List Int :=
  (List.range (min tp (cp + 3) - max 1 (cp - 3) + 1).toNat).map
    (fun k : Nat => max 1 (cp - 3) + (k : Int))

/-- displayPagination (app.js lines 342-370) for integer globals: an empty
container when totalPages is at most 1, otherwise the Previous button
(disabled on page 1, targeting currentPage - 1), one numbered button per
page of the window (active exactly at the current page) and the Next
button (disabled on the last page, targeting currentPage + 1). -/
def displayPagination (cp tp : Int) : List PagBtn :=
  if tp ≤ 1 then []
  else
    PagBtn.prev (decide (cp = 1)) (cp - 1)
    :: (pageRange cp tp).map (fun i => PagBtn.page i (decide (i = cp)))
    ++ [PagBtn.next (decide (cp = tp)) (cp + 1)]

/-- displayPagination when the totalPages global is undefined (a malformed
search body): undefined is not at most 1, the numbered loop runs zero
times because its bound is NaN, and the Next button comparison with
undefined is false, leaving an enabled Next button. -/
def displayPaginationNaN (cp : Int) : List PagBtn :=
  [PagBtn.prev (decide (cp = 1)) (cp - 1), PagBtn.next false (cp + 1)]

/-- Rewrite the pagination container from the current globals. -/
def displayPaginationState (s : AppState) : AppState :=
  { s with pagination :=
      match s.totalPages with
      | some tp => displayPagination s.currentPage tp
      | none => displayPaginationNaN s.currentPage }

/-- Message of the TypeError thrown when a property of an undefined field
is read. -/
def undefinedFieldMsg (field : String) : String :=
  "Cannot read properties of undefined (reading \x27" ++ field ++ "\x27)"

/-- The try block of searchStudies after a parsed body was obtained
(app.js lines 253-277).  The totalPages and totalResults globals take the
body fields first; both totalCount branches then read
data.total.toLocaleString(), so a body without a total field throws there
and the catch alerts the TypeError; a body without a results array has
displayResults empty the container and then throw at data.results.length.
Otherwise the results and
pagination are rendered, the sidebar chat controls are enabled and the
advanced warning is recomputed. -/
def searchOkBody (data : SearchData) (s : AppState) : AppState :=
  let s := { s with totalPages := data.total_pages, totalResults := data.total }
  match data.total with
  | none => jsAlert ("Error: " ++ undefinedFieldMsg "toLocaleString") s
  | some total =>
    let s := { s with totalCount := renderTotalCount data.searchType total }
    match data.results with
    | none =>
      jsAlert ("Error: " ++ undefinedFieldMsg "length")
        { s with resultsContainer := ResultsView.empty }
    | some results =>
      let s := { s with resultsContainer := renderResults results }
      let s := displayPaginationState s
      let s := { s with sidebarInputDisabled := false, sidebarSendDisabled := false }
      { s with advancedWarningShown := s.isAdvancedMode && jsGtOpt s.totalResults 50 }

/-- searchStudies (app.js lines 239-282) for one completed round trip: the
pre phase, then either the catch path (alerting Error: plus the message of
the thrown error), the not-ok path (the thrown Search failed error reaches
the same catch) or the parsed-body path. -/
def searchStudies (page : Int) (outcome : SearchOutcome) (s : AppState) : AppState :=
  let s1 := (searchPre page s).1
  match outcome with
  | SearchOutcome.throws m => jsAlert ("Error: " ++ m) s1
  | SearchOutcome.notOk => jsAlert "Error: Search failed" s1
  | SearchOutcome.ok data => searchOkBody data s1

/-- The search-form controls after clearFilters: text and date inputs
emptied, multi-select selections and checked age groups dropped, check
boxes unchecked, the perPage select kept. -/
def clearedForm (f : FormState) : FormState :=
  { condition := "", intervention := "", location := "", sex := "", hasResults := ""
    studyStartFrom := "", studyStartTo := "", primaryCompletionFrom := "", primaryCompletionTo := ""
    title := "", outcome := "", sponsor := "", nctId := ""
    status := [], studyType := [], phase := [], funderType := [], ageGroups := []
    healthyVolunteers := false, hasProtocol := false, hasSAP := false, hasICF := false
    fdaaa801Violation := false, useSemanticSearch := false
    perPage := f.perPage }

/-- The placeholder fragment clearFilters writes into the sidebar chat
container (app.js lines 386-391). -/
def sidebarPlaceholderHtml : String :=
  "<div class=\"chat-placeholder\"><h3>Search first, then ask questions!</h3><p style=\"margin: 15px 0;\">After searching, ask questions about all filtered studies</p></div>"

/-- clearFilters (app.js lines 372-394): clear the search-form controls,
reset the page cursor to 1, drop the stored filter record, empty the
results container, zero the total count, replace the sidebar chat log with
its placeholder and disable both sidebar chat controls.  The page-wide
input selectors can also hit inputs outside the search form, but
index.html is not part of the excerpt, so only the search-form controls
are modelled. -/
def clearFilters (s : AppState) : AppState :=
  { s with
    form := clearedForm s.form
    currentPage := 1
    currentFilters := none
    resultsContainer := ResultsView.empty
    totalCount := "0"
    sidebarMessages := { placeholder := some sidebarPlaceholderHtml, msgs := [] }
    sidebarInputDisabled := true
    sidebarSendDisabled := true }

/-- Replace every literal occurrence of the paragraph open tag by the same
tag with a bottom margin, left to right without overlap, the way the
global regex replace of app.js line 489 does; the second replace on that
line rewrites the close tag to itself and is the identity. -/
def styleParagraphChars : List Char → List Char
  | '<' :: 'p' :: '>' :: rest => "<p style=\"margin-bottom: 1em;\">".data ++ styleParagraphChars rest
  | c :: rest => c :: styleParagraphChars rest
  | [] => []

/-- The report content transformation of generateProtocolReport. -/
def styleParagraphs (r : String) : String := ⟨styleParagraphChars r.data⟩

/-- The part of generateProtocolReport (app.js lines 455-476) before the
fetch: read and trim both inputs, alert and bail out when the condition is
empty, otherwise show the loading element, hide the previous report and
issue the request.  No control is disabled. -/
def generateProtocolReportPre (s : AppState) : AppState × Option ProtocolRequest :=
  let condition := jsTrim s.protocolCondition
  let intervention := jsTrim s.protocolIntervention
  if condition == "" then (jsAlert "Please enter a condition or disease" s, none)
  else ({ s with protocolLoadingVisible := true, protocolReportVisible := false },
        some ⟨condition, intervention⟩)

/-- The success path of generateProtocolReport with a present report
field: style the report paragraphs, write them into the report element and
show the container. -/
def showReport (report : String) (s : AppState) : AppState :=
  { s with
    protocolReportContent := styleParagraphs report
    protocolReportVisible := true }

/-- The report rendering of generateProtocolReport: a body without a
report field throws at data.report.replace and the catch alerts the
TypeError with the report still hidden; otherwise the report is shown. -/
def renderReport (data : ProtocolData) (s : AppState) : AppState :=
  match data.report with
  | none => jsAlert ("Error generating report: " ++ undefinedFieldMsg "replace") s
  | some r => showReport r s

/-- The part of generateProtocolReport (app.js lines 478-502) after the
fetch: hide the loading element on every path; alert the verbatim error
and keep the report hidden when the body has a truthy error field; alert
Error generating report: plus the thrown message when the fetch threw;
otherwise display the report. -/
def generateProtocolReportPost (outcome : FetchOutcome ProtocolData) (s : AppState) : AppState :=
  match outcome with
  | FetchOutcome.throws m =>
    jsAlert ("Error generating report: " ++ m) { s with protocolLoadingVisible := false }
  | FetchOutcome.ok data =>
    let s1 := { s with protocolLoadingVisible := false }
    match data.error with
    | some e => if e == "" then renderReport data s1 else jsAlert ("Error: " ++ e) s1
    | none => renderReport data s1

/-- showAgentError (app.js lines 517-521): the error fragment with the
fixed Error: label and the verbatim message. -/
def showAgentError (message : String) : Panel :=
  Panel.agentError
    ("<div style=\"background: #fee; color: #c00; padding: 15px; border-radius: 5px; border-left: 4px solid #c00;\"><strong>Error:</strong> " ++
     message ++ "</div>")

/-- The part of runAgenticSearch (app.js lines 524-533) before the fetch:
trim the query, alert and bail out when it is empty, otherwise disable the
trigger button, show the loading fragment and issue the request. -/
def runAgenticSearchPre (s : AppState) : AppState × Option AgenticRequest :=
  let query := jsTrim s.agenticSearchQuery
  if query == "" then (jsAlert "Please enter a search query" s, none)
  else ({ s with agenticSearchBtnDisabled := true, agenticSearchResult := Panel.agentLoading },
        some ⟨query⟩)

/-- The part of runAgenticSearch (app.js lines 542-578) after the fetch:
render the success template when the body has a truthy success flag,
otherwise the error fragment with the error field or Unknown error; on a
thrown fetch the error fragment with the thrown message; the finally block
re-enables the trigger button on every path. -/
def runAgenticSearchPost (outcome : FetchOutcome AgenticData) (s : AppState) : AppState :=
  let s1 :=
    match outcome with
    | FetchOutcome.throws m => { s with agenticSearchResult := showAgentError m }
    | FetchOutcome.ok data =>
      if jsTruthyB data.success then { s with agenticSearchResult := Panel.agenticSuccess data }
      else { s with agenticSearchResult := showAgentError (jsOrElse data.error "Unknown error") }
  { s1 with agenticSearchBtnDisabled := false }

/-- The part of runMultiAgentAnalysis (app.js lines 582-591) before the
fetch. -/
def runMultiAgentAnalysisPre (s : AppState) : AppState × Option NctRequest :=
  let nctId := jsTrim s.analysisNctId
  if nctId == "" then (jsAlert "Please enter an NCT ID" s, none)
  else ({ s with analysisBtnDisabled := true, analysisResult := Panel.agentLoading },
        some ⟨nctId⟩)

/-- The part of runMultiAgentAnalysis (app.js lines 600-630) after the
fetch. -/
def runMultiAgentAnalysisPost (outcome : FetchOutcome AnalysisData) (s : AppState) : AppState :=
  let s1 :=
    match outcome with
    | FetchOutcome.throws m => { s with analysisResult := showAgentError m }
    | FetchOutcome.ok data =>
      if jsTruthyB data.success then { s with analysisResult := Panel.analysisSuccess data }
      else { s with analysisResult := showAgentError (jsOrElse data.error "Unknown error") }
  { s1 with analysisBtnDisabled := false }

/-- The part of runTrialComparison (app.js lines 634-649) before the
fetch: at least the first two NCT ids must be nonempty after trimming; the
third is appended to the request only when truthy. -/
def runTrialComparisonPre (s : AppState) : AppState × Option CompareRequest :=
  let nct1 := jsTrim s.compareNct1
  let nct2 := jsTrim s.compareNct2
  let nct3 := jsTrim s.compareNct3
  if nct1 == "" || nct2 == "" then (jsAlert "Please enter at least 2 NCT IDs" s, none)
  else ({ s with compareBtnDisabled := true, compareResult := Panel.agentLoading },
        some ⟨[nct1, nct2] ++ (if nct3 == "" then [] else [nct3])⟩)

/-- The part of runTrialComparison (app.js lines 658-699) after the
fetch. -/
def runTrialComparisonPost (outcome : FetchOutcome CompareData) (s : AppState) : AppState :=
  let s1 :=
    match outcome with
    | FetchOutcome.throws m => { s with compareResult := showAgentError m }
    | FetchOutcome.ok data =>
      if jsTruthyB data.success then { s with compareResult := Panel.compareSuccess data }
      else { s with compareResult := showAgentError (jsOrElse data.error "Unknown error") }
  { s1 with compareBtnDisabled := false }

/-- The part of runAmendmentRisk (app.js lines 708-717) before the
fetch. -/
def runAmendmentRiskPre (s : AppState) : AppState × Option NctRequest :=
  let nctId := jsTrim s.amendmentNctId
  if nctId == "" then (jsAlert "Please enter an NCT ID" s, none)
  else ({ s with amendmentBtnDisabled := true, amendmentResult := Panel.agentLoading },
        some ⟨nctId⟩)

/-- The part of runAmendmentRisk (app.js lines 726-756) after the
fetch. -/
def runAmendmentRiskPost (outcome : FetchOutcome AmendmentData) (s : AppState) : AppState :=
  let s1 :=
    match outcome with
    | FetchOutcome.throws m => { s with amendmentResult := showAgentError m }
    | FetchOutcome.ok data =>
      if jsTruthyB data.success then { s with amendmentResult := Panel.amendmentSuccess data }
      else { s with amendmentResult := showAgentError (jsOrElse data.error "Unknown error") }
  { s1 with amendmentBtnDisabled := false }

/-- The part of runDesignPatterns (app.js lines 760-772) before the fetch:
the condition and intervention type are trimmed, the phase select value is
not; empty phase and intervention type are sent as null. -/
def runDesignPatternsPre (s : AppState) : AppState × Option PatternRequest :=
  let condition := jsTrim s.patternCondition
  let phase := s.patternPhase
  let interventionType := jsTrim s.patternIntervention
  if condition == "" then (jsAlert "Please enter a condition" s, none)
  else ({ s with patternBtnDisabled := true, patternResult := Panel.agentLoading },
        some ⟨condition,
              if phase == "" then none else some phase,
              if interventionType == "" then none else some interventionType⟩)

/-- The part of runDesignPatterns (app.js lines 781-819) after the
fetch. -/
def runDesignPatternsPost (outcome : FetchOutcome PatternData) (s : AppState) : AppState :=
  let s1 :=
    match outcome with
    | FetchOutcome.throws m => { s with patternResult := showAgentError m }
    | FetchOutcome.ok data =>
      if jsTruthyB data.success then { s with patternResult := Panel.patternSuccess data }
      else { s with patternResult := showAgentError (jsOrElse data.error "Unknown error") }
  { s1 with patternBtnDisabled := false }

/-- The part of runSoAComposer (app.js lines 823-835) before the fetch. -/
def runSoAComposerPre (s : AppState) : AppState × Option PatternRequest :=
  let condition := jsTrim s.soaCondition
  let phase := s.soaPhase
  let interventionType := jsTrim s.soaIntervention
  if condition == "" then (jsAlert "Please enter a condition" s, none)
  else ({ s with soaBtnDisabled := true, soaResult := Panel.agentLoading },
        some ⟨condition,
              if phase == "" then none else some phase,
              if interventionType == "" then none else some interventionType⟩)

/-- The part of runSoAComposer (app.js lines 844-889) after the fetch. -/
def runSoAComposerPost (outcome : FetchOutcome SoaData) (s : AppState) : AppState :=
  let s1 :=
    match outcome with
    | FetchOutcome.throws m => { s with soaResult := showAgentError m }
    | FetchOutcome.ok data =>
      if jsTruthyB data.success then { s with soaResult := Panel.soaSuccess data }
      else { s with soaResult := showAgentError (jsOrElse data.error "Unknown error") }
  { s1 with soaBtnDisabled := false }

/-- The user and assistant bubbles of a chat log, in order; loading
bubbles are transient and placeholders are not messages. -/
def visibleMsgs (t : Transcript) : List Msg :=
  t.msgs.filter (fun m => m.role == Role.user || m.role == Role.assistant)

/-- The page a click on an enabled pagination button would request; a
disabled button has no target. -/
def enabledTarget : PagBtn → Option Int
  | PagBtn.prev d t => if d then none else some t
  | PagBtn.page n _ => some n
  | PagBtn.next d t => if d then none else some t

/-- The numbered page buttons of a pagination container, each with its
page number and active flag. -/
def pageOf : PagBtn → Option (Int × Bool)
  | PagBtn.page n a => some (n, a)
  | _ => none

/-- The search form with every control empty and the default page size. -/
def emptyForm : FormState :=
  { condition := "", intervention := "", location := "", sex := "", hasResults := ""
    studyStartFrom := "", studyStartTo := "", primaryCompletionFrom := "", primaryCompletionTo := ""
    title := "", outcome := "", sponsor := "", nctId := ""
    status := [], studyType := [], phase := [], funderType := [], ageGroups := []
    healthyVolunteers := false, hasProtocol := false, hasSAP := false, hasICF := false
    fdaaa801Violation := false, useSemanticSearch := false
    perPage := "10" }

/-- A concrete page state shortly after load: the script globals of app.js
lines 1-6, an empty form, empty containers, the sidebar chat disabled and
no open modal. -/
def s0 : AppState :=
  { currentChatStudy := none
    currentPage := 1
    totalPages := some 1
    totalResults := some 0
    currentFilters := none
    isAdvancedMode := false
    form := emptyForm
    searchBtnDisabled := false
    resultsContainer := ResultsView.empty
    totalCount := "0"
    pagination := []
    advancedWarningShown := false
    chatStudyTitle := ""
    chatModalVisible := false
    chatMessages := { placeholder := none, msgs := [] }
    chatInput := ""
    chatSendDisabled := false
    sidebarMessages := { placeholder := some sidebarPlaceholderHtml, msgs := [] }
    sidebarChatInput := ""
    sidebarInputDisabled := true
    sidebarSendDisabled := true
    llmModel := "gpt-4"
    protocolCondition := ""
    protocolIntervention := ""
    protocolLoadingVisible := false
    protocolReportVisible := false
    protocolReportContent := ""
    protocolBtnDisabled := false
    agenticSearchQuery := ""
    agenticSearchBtnDisabled := false
    agenticSearchResult := Panel.empty
    analysisNctId := ""
    analysisBtnDisabled := false
    analysisResult := Panel.empty
    compareNct1 := ""
    compareNct2 := ""
    compareNct3 := ""
    compareBtnDisabled := false
    compareResult := Panel.empty
    amendmentNctId := ""
    amendmentBtnDisabled := false
    amendmentResult := Panel.empty
    patternCondition := ""
    patternPhase := ""
    patternIntervention := ""
    patternBtnDisabled := false
    patternResult := Panel.empty
    soaCondition := ""
    soaPhase := ""
    soaIntervention := ""
    soaBtnDisabled := false
    soaResult := Panel.empty
    alerts := [] }

/-- A concrete state in which every guarded handler has a nonempty input,
a study chat is open and a search has stored filters, so every pre phase
issues its request. -/
def sReady : AppState :=
  { s0 with
    currentChatStudy := some "NCT001"
    currentFilters := some (getFilters s0)
    chatInput := "what is the endpoint"
    sidebarChatInput := "compare the arms"
    sidebarInputDisabled := false
    sidebarSendDisabled := false
    protocolCondition := "asthma"
    agenticSearchQuery := "asthma trials"
    analysisNctId := "NCT001"
    compareNct1 := "NCT001"
    compareNct2 := "NCT002"
    amendmentNctId := "NCT001"
    patternCondition := "copd"
    soaCondition := "copd" }

/-- Dropping with the same predicate twice drops nothing new. -/
theorem dropWhile_idem {α : Type} (p : α → Bool) (l : List α) :
    (l.dropWhile p).dropWhile p = l.dropWhile p := by
  induction l with
  | nil => rfl
  | cons a t ih =>
    by_cases h : p a = true
    · simp [List.dropWhile_cons, h, ih]
    · simp [List.dropWhile_cons, h]

/-- dropWhile never lengthens a list. -/
theorem dropWhile_length_le {α : Type} (p : α → Bool) (l : List α) :
    (l.dropWhile p).length ≤ l.length := by
  induction l with
  | nil => simp
  | cons a t ih =>
    by_cases h : p a = true
    · rw [List.dropWhile_cons, if_pos h]
      exact le_trans ih (Nat.le_succ _)
    · rw [List.dropWhile_cons, if_neg h]

/-- A list is its dropped part preceded by dropped elements, all of which
satisfy the predicate. -/
theorem dropWhile_decomp {α : Type} (p : α → Bool) (l : List α) :
    ∃ t, l = t ++ l.dropWhile p ∧ ∀ c ∈ t, p c = true := by
  induction l with
  | nil => exact ⟨[], rfl, by simp⟩
  | cons a t ih =>
    by_cases h : p a = true
    · obtain ⟨u, hu, hall⟩ := ih
      refine ⟨a :: u, ?_, ?_⟩
      · rw [List.dropWhile_cons, if_pos h]
        simp only [List.cons_append]
        exact congrArg (List.cons a) hu
      · intro c hc
        rcases List.mem_cons.mp hc with rfl | hc
        · exact h
        · exact hall c hc
    · exact ⟨[], by rw [List.dropWhile_cons, if_neg h]; rfl, by simp⟩

/-- dropWhile keeps a cons whose head fails the predicate. -/
theorem dropWhile_cons_neg {α : Type} (p : α → Bool) (a : α) (t : List α)
    (h : p a = false) : (a :: t).dropWhile p = a :: t := by
  rw [List.dropWhile_cons, if_neg]
  simp [h]

/-- A list fixed by dropWhile is empty or starts with an element failing
the predicate. -/
theorem dropWhile_fix_cases {α : Type} (p : α → Bool) (l : List α)
    (h : l.dropWhile p = l) : l = [] ∨ ∃ a t, l = a :: t ∧ p a = false := by
  cases l with
  | nil => exact Or.inl rfl
  | cons a t =>
    right
    refine ⟨a, t, rfl, ?_⟩
    cases hpa : p a
    · rfl
    · exfalso
      rw [List.dropWhile_cons, if_pos hpa] at h
      have hle := dropWhile_length_le p t
      rw [h] at hle
      simp only [List.length_cons] at hle
      omega

/-- trimR removes a run of whitespace from the tail of the list. -/
theorem trimR_decomp (l : List Char) :
    ∃ t, l = trimR l ++ t ∧ ∀ c ∈ t, isJsWS c = true := by
  obtain ⟨u, hu, hall⟩ := dropWhile_decomp isJsWS l.reverse
  refine ⟨u.reverse, ?_, ?_⟩
  · have h2 := congrArg List.reverse hu
    simpa [trimR, List.reverse_append] using h2
  · intro c hc
    exact hall c (List.mem_reverse.mp hc)

/-- trimR is idempotent. -/
theorem trimR_idem (l : List Char) : trimR (trimR l) = trimR l := by
  unfold trimR
  rw [List.reverse_reverse, dropWhile_idem]

/-- A list with no leading whitespace keeps that property after trimR. -/
theorem trimL_trimR_of_clean (l : List Char) (h : trimL l = l) :
    trimL (trimR l) = trimR l := by
  obtain ⟨t, ht, _⟩ := trimR_decomp l
  rcases dropWhile_fix_cases isJsWS l h with hnil | ⟨a, u, hl, ha⟩
  · subst hnil
    rfl
  · cases htr : trimR l with
    | nil => rfl
    | cons b m =>
      rw [htr] at ht
      rw [hl] at ht
      simp only [List.cons_append] at ht
      have hb : a = b := by
        have h3 := congrArg List.head? ht
        simpa using h3
      unfold trimL
      exact dropWhile_cons_neg isJsWS b m (hb ▸ ha)

/-- trimChars is idempotent. -/
theorem trimChars_idem (l : List Char) : trimChars (trimChars l) = trimChars l := by
  unfold trimChars
  have h1 : trimL (trimL l) = trimL l := dropWhile_idem isJsWS l
  have h2 : trimL (trimR (trimL l)) = trimR (trimL l) := trimL_trimR_of_clean (trimL l) h1
  rw [h2, trimR_idem]

/-- The JavaScript trim is idempotent. -/
theorem jsTrim_idem (s : String) : jsTrim (jsTrim s) = jsTrim s := by
  unfold jsTrim
  exact congrArg String.mk (trimChars_idem s.data)

/-- Trimming a string made of whitespace gives the empty string. -/
theorem jsTrim_eq_empty (s : String) (h : ∀ c ∈ s.data, isJsWS c = true) :
    jsTrim s = "" := by
  unfold jsTrim
  have h1 : trimL s.data = [] := List.dropWhile_eq_nil_iff.mpr h
  have h2 : trimChars s.data = [] := by
    unfold trimChars
    rw [h1]
    rfl
  rw [h2]

/-- eraseP passes over an initial segment whose elements all fail the
predicate. -/
theorem eraseP_append_of_all_neg {α : Type} (p : α → Bool) (l1 l2 : List α)
    (h : ∀ b ∈ l1, p b = false) :
    (l1 ++ l2).eraseP p = l1 ++ l2.eraseP p := by
  induction l1 with
  | nil => rfl
  | cons a t ih =>
    have ha : p a = false := h a (List.mem_cons_self a t)
    have ih2 := ih (fun b hb => h b (List.mem_cons_of_mem a hb))
    simp [List.eraseP_cons, ha, ih2]

/-- The mid-flight state and request of the modal chat when the guard
passes, with t1 and t2 the Date.now readings of the two appends. -/
theorem sendMessagePre_eq (t1 t2 : Nat) (s : AppState)
    (hg : (jsTrim s.chatInput == "" || jsStrFalsy s.currentChatStudy) = false) :
    sendMessagePre t1 t2 s =
      ({ s with
          chatMessages := { s.chatMessages with msgs := s.chatMessages.msgs ++
            [Msg.mk t1 (jsTrim s.chatInput) Role.user,
             Msg.mk t2 "Analyzing study data..." Role.loading] }
          chatInput := "" },
        some (⟨s.currentChatStudy.getD "", jsTrim s.chatInput⟩, t2)) := by
  simp [sendMessagePre, hg, addModalMessage]

/-- Every branch of the modal post phase erases the first bubble carrying
the loading id and appends exactly one assistant bubble. -/
theorem sendMessagePost_msgs (lid t3 : Nat) (o : FetchOutcome ChatData) (s : AppState) :
    ∃ txt, (sendMessagePost lid t3 o s).chatMessages.msgs =
      s.chatMessages.msgs.eraseP (fun m => m.id == lid) ++ [Msg.mk t3 txt Role.assistant] := by
  cases o with
  | throws m => exact ⟨"Error: Failed to get response.", rfl⟩
  | ok data =>
    obtain ⟨err, ans⟩ := data
    cases err with
    | none => exact ⟨jsToStr ans, rfl⟩
    | some e =>
      by_cases he : (e == "") = true
      · exact ⟨jsToStr ans, by simp [sendMessagePost, he, addModalMessage, removeModalMsg]⟩
      · exact ⟨"Error: " ++ e, by simp [sendMessagePost, he, addModalMessage, removeModalMsg]⟩

/-- A completed modal chat round trip whose guard passes and whose two
Date.now readings fall in distinct milliseconds removes the loading bubble
and appends the user bubble and one assistant bubble, provided no existing
bubble carries the loading id. -/
theorem sendMessageRun_msgs (t1 t2 t3 : Nat) (o : FetchOutcome ChatData) (s : AppState)
    (hg : (jsTrim s.chatInput == "" || jsStrFalsy s.currentChatStudy) = false)
    (hne : t1 ≠ t2)
    (h : ∀ m ∈ s.chatMessages.msgs, m.id ≠ t2) :
    ∃ txt, (sendMessageRun t1 t2 t3 o s).chatMessages.msgs =
      s.chatMessages.msgs ++ [Msg.mk t1 (jsTrim s.chatInput) Role.user,
        Msg.mk t3 txt Role.assistant] := by
  have herase :
      (s.chatMessages.msgs ++ [Msg.mk t1 (jsTrim s.chatInput) Role.user,
        Msg.mk t2 "Analyzing study data..." Role.loading]).eraseP
          (fun m => m.id == t2)
      = s.chatMessages.msgs ++ [Msg.mk t1 (jsTrim s.chatInput) Role.user] := by
    have hsplit : s.chatMessages.msgs ++ [Msg.mk t1 (jsTrim s.chatInput) Role.user,
        Msg.mk t2 "Analyzing study data..." Role.loading]
        = (s.chatMessages.msgs ++ [Msg.mk t1 (jsTrim s.chatInput) Role.user]) ++
          [Msg.mk t2 "Analyzing study data..." Role.loading] := by simp
    rw [hsplit, eraseP_append_of_all_neg]
    · simp [List.eraseP_cons]
    · intro b hb
      simp only [List.mem_append, List.mem_singleton] at hb
      rcases hb with hb | rfl
      · exact beq_eq_false_iff_ne.mpr (h b hb)
      · exact beq_eq_false_iff_ne.mpr hne
  unfold sendMessageRun
  rw [sendMessagePre_eq t1 t2 s hg]
  obtain ⟨txt, hp⟩ := sendMessagePost_msgs t2 t3 o
      ({ s with
          chatMessages := { s.chatMessages with msgs := s.chatMessages.msgs ++
            [Msg.mk t1 (jsTrim s.chatInput) Role.user,
             Msg.mk t2 "Analyzing study data..." Role.loading] }
          chatInput := "" })
  refine ⟨txt, ?_⟩
  rw [hp]
  simp only at herase ⊢
  rw [herase]
  simp

/-- A completed modal chat round trip whose guard passes and whose two
Date.now readings coincide gives the user bubble and the loading bubble
one shared id, so the removal step deletes the user bubble and the loading
bubble survives next to the assistant bubble. -/
theorem sendMessageRun_msgs_collide (t t3 : Nat) (o : FetchOutcome ChatData) (s : AppState)
    (hg : (jsTrim s.chatInput == "" || jsStrFalsy s.currentChatStudy) = false)
    (h : ∀ m ∈ s.chatMessages.msgs, m.id ≠ t) :
    ∃ txt, (sendMessageRun t t t3 o s).chatMessages.msgs =
      s.chatMessages.msgs ++ [Msg.mk t "Analyzing study data..." Role.loading,
        Msg.mk t3 txt Role.assistant] := by
  have herase :
      (s.chatMessages.msgs ++ [Msg.mk t (jsTrim s.chatInput) Role.user,
        Msg.mk t "Analyzing study data..." Role.loading]).eraseP
          (fun m => m.id == t)
      = s.chatMessages.msgs ++ [Msg.mk t "Analyzing study data..." Role.loading] := by
    rw [eraseP_append_of_all_neg]
    · simp [List.eraseP_cons]
    · intro b hb
      exact beq_eq_false_iff_ne.mpr (h b hb)
  unfold sendMessageRun
  rw [sendMessagePre_eq t t s hg]
  obtain ⟨txt, hp⟩ := sendMessagePost_msgs t t3 o
      ({ s with
          chatMessages := { s.chatMessages with msgs := s.chatMessages.msgs ++
            [Msg.mk t (jsTrim s.chatInput) Role.user,
             Msg.mk t "Analyzing study data..." Role.loading] }
          chatInput := "" })
  refine ⟨txt, ?_⟩
  rw [hp]
  simp only at herase ⊢
  rw [herase]
  simp

/-- The mid-flight state and request of the sidebar chat when the guard
passes, with t1 and t2 the Date.now readings of the two appends. -/
theorem sendSidebarMessagePre_eq (t1 t2 : Nat) (s : AppState) (f : Filters)
    (hq : (jsTrim s.sidebarChatInput == "") = false)
    (hf : s.currentFilters = some f) :
    sendSidebarMessagePre t1 t2 s =
      ({ s with
          sidebarMessages := { placeholder := none
                               msgs := s.sidebarMessages.msgs ++
            [Msg.mk t1 (jsTrim s.sidebarChatInput) Role.user,
             Msg.mk t2
               ("Analyzing " ++
                 (if s.isAdvancedMode then "ALL complete study data"
                  else "essential study data") ++ " from filtered studies...")
               Role.loading] }
          sidebarChatInput := ""
          sidebarSendDisabled := true
          sidebarInputDisabled := true },
        some (⟨f, jsTrim s.sidebarChatInput, s.isAdvancedMode, s.llmModel⟩, t2)) := by
  simp [sendSidebarMessagePre, hq, hf, addSidebarMessage]

/-- Every branch of the sidebar post phase erases the first bubble
carrying the loading id and appends exactly one assistant bubble. -/
theorem sendSidebarMessagePost_msgs (lid t3 : Nat) (o : FetchOutcome ChatAllData) (s : AppState) :
    ∃ txt, (sendSidebarMessagePost lid t3 o s).sidebarMessages.msgs =
      s.sidebarMessages.msgs.eraseP (fun m => m.id == lid) ++ [Msg.mk t3 txt Role.assistant] := by
  cases o with
  | throws m => exact ⟨"Error: Failed to get response.", rfl⟩
  | ok data =>
    obtain ⟨err, ans, info⟩ := data
    cases err with
    | none => exact ⟨sidebarAnswer ⟨none, ans, info⟩, rfl⟩
    | some e =>
      by_cases he : (e == "") = true
      · exact ⟨sidebarAnswer ⟨some e, ans, info⟩,
          by simp [sendSidebarMessagePost, he, addSidebarMessage, removeSidebarMsg]⟩
      · exact ⟨"Error: " ++ e,
          by simp [sendSidebarMessagePost, he, addSidebarMessage, removeSidebarMsg]⟩

/-- A completed sidebar chat round trip whose guard passes and whose two
Date.now readings fall in distinct milliseconds removes the loading bubble
and appends the user bubble and one assistant bubble, provided no existing
bubble carries the loading id. -/
theorem sendSidebarMessageRun_msgs (t1 t2 t3 : Nat) (o : FetchOutcome ChatAllData)
    (s : AppState) (f : Filters)
    (hq : (jsTrim s.sidebarChatInput == "") = false)
    (hf : s.currentFilters = some f)
    (hne : t1 ≠ t2)
    (h : ∀ m ∈ s.sidebarMessages.msgs, m.id ≠ t2) :
    ∃ txt, (sendSidebarMessageRun t1 t2 t3 o s).sidebarMessages.msgs =
      s.sidebarMessages.msgs ++ [Msg.mk t1 (jsTrim s.sidebarChatInput) Role.user,
        Msg.mk t3 txt Role.assistant] := by
  have herase :
      (s.sidebarMessages.msgs ++ [Msg.mk t1 (jsTrim s.sidebarChatInput) Role.user,
        Msg.mk t2
          ("Analyzing " ++
            (if s.isAdvancedMode then "ALL complete study data"
             else "essential study data") ++ " from filtered studies...")
          Role.loading]).eraseP (fun m => m.id == t2)
      = s.sidebarMessages.msgs ++ [Msg.mk t1 (jsTrim s.sidebarChatInput) Role.user] := by
    have hsplit : s.sidebarMessages.msgs ++ [Msg.mk t1 (jsTrim s.sidebarChatInput) Role.user,
        Msg.mk t2
          ("Analyzing " ++
            (if s.isAdvancedMode then "ALL complete study data"
             else "essential study data") ++ " from filtered studies...")
          Role.loading]
        = (s.sidebarMessages.msgs ++ [Msg.mk t1 (jsTrim s.sidebarChatInput) Role.user]) ++
          [Msg.mk t2
            ("Analyzing " ++
              (if s.isAdvancedMode then "ALL complete study data"
               else "essential study data") ++ " from filtered studies...")
            Role.loading] := by simp
    rw [hsplit, eraseP_append_of_all_neg]
    · simp [List.eraseP_cons]
    · intro b hb
      simp only [List.mem_append, List.mem_singleton] at hb
      rcases hb with hb | rfl
      · exact beq_eq_false_iff_ne.mpr (h b hb)
      · exact beq_eq_false_iff_ne.mpr hne
  unfold sendSidebarMessageRun
  rw [sendSidebarMessagePre_eq t1 t2 s f hq hf]
  obtain ⟨txt, hp⟩ := sendSidebarMessagePost_msgs t2 t3 o
      ({ s with
          sidebarMessages := { placeholder := none
                               msgs := s.sidebarMessages.msgs ++
            [Msg.mk t1 (jsTrim s.sidebarChatInput) Role.user,
             Msg.mk t2
               ("Analyzing " ++
                 (if s.isAdvancedMode then "ALL complete study data"
                  else "essential study data") ++ " from filtered studies...")
               Role.loading] }
          sidebarChatInput := ""
          sidebarSendDisabled := true
          sidebarInputDisabled := true })
  refine ⟨txt, ?_⟩
  rw [hp]
  simp only at herase ⊢
  rw [herase]
  simp

/-- A completed sidebar chat round trip whose guard passes and whose two
Date.now readings coincide removes the user bubble instead of the loading
bubble, which survives next to the assistant bubble. -/
theorem sendSidebarMessageRun_msgs_collide (t t3 : Nat) (o : FetchOutcome ChatAllData)
    (s : AppState) (f : Filters)
    (hq : (jsTrim s.sidebarChatInput == "") = false)
    (hf : s.currentFilters = some f)
    (h : ∀ m ∈ s.sidebarMessages.msgs, m.id ≠ t) :
    ∃ txt, (sendSidebarMessageRun t t t3 o s).sidebarMessages.msgs =
      s.sidebarMessages.msgs ++
        [Msg.mk t
          ("Analyzing " ++
            (if s.isAdvancedMode then "ALL complete study data"
             else "essential study data") ++ " from filtered studies...")
          Role.loading,
         Msg.mk t3 txt Role.assistant] := by
  have herase :
      (s.sidebarMessages.msgs ++ [Msg.mk t (jsTrim s.sidebarChatInput) Role.user,
        Msg.mk t
          ("Analyzing " ++
            (if s.isAdvancedMode then "ALL complete study data"
             else "essential study data") ++ " from filtered studies...")
          Role.loading]).eraseP (fun m => m.id == t)
      = s.sidebarMessages.msgs ++
        [Msg.mk t
          ("Analyzing " ++
            (if s.isAdvancedMode then "ALL complete study data"
             else "essential study data") ++ " from filtered studies...")
          Role.loading] := by
    rw [eraseP_append_of_all_neg]
    · simp [List.eraseP_cons]
    · intro b hb
      exact beq_eq_false_iff_ne.mpr (h b hb)
  unfold sendSidebarMessageRun
  rw [sendSidebarMessagePre_eq t t s f hq hf]
  obtain ⟨txt, hp⟩ := sendSidebarMessagePost_msgs t t3 o
      ({ s with
          sidebarMessages := { placeholder := none
                               msgs := s.sidebarMessages.msgs ++
            [Msg.mk t (jsTrim s.sidebarChatInput) Role.user,
             Msg.mk t
               ("Analyzing " ++
                 (if s.isAdvancedMode then "ALL complete study data"
                  else "essential study data") ++ " from filtered studies...")
               Role.loading] }
          sidebarChatInput := ""
          sidebarSendDisabled := true
          sidebarInputDisabled := true })
  refine ⟨txt, ?_⟩
  rw [hp]
  simp only at herase ⊢
  rw [herase]
  simp

/-- C7: for every NCT id string, opening the chat modal sets the
transcript header to the text Chat about followed by the id, records the
id as the current chat study, shows the modal and replaces any prior
transcript content with the fresh placeholder fragment built from the
study title. -/
theorem c7_open_chat_modal (nctId title : String) (s : AppState) :
    (openChatModal nctId title s).chatStudyTitle = "Chat about " ++ nctId ∧
    (openChatModal nctId title s).currentChatStudy = some nctId ∧
    (openChatModal nctId title s).chatMessages =
      { placeholder := some (modalPlaceholderHtml title), msgs := [] } ∧
    (openChatModal nctId title s).chatModalVisible = true :=
  ⟨rfl, rfl, rfl, rfl⟩

/-- C8: clearing the filters always resets the page cursor to 1, drops the
stored filter record, empties the results container and disables both
sidebar chat controls. -/
theorem c8_clear_filters (s : AppState) :
    (clearFilters s).currentPage = 1 ∧
    (clearFilters s).currentFilters = none ∧
    (clearFilters s).resultsContainer = ResultsView.empty ∧
    (clearFilters s).sidebarInputDisabled = true ∧
    (clearFilters s).sidebarSendDisabled = true :=
  ⟨rfl, rfl, rfl, rfl, rfl⟩

/-- C9: when the trimmed chat input is empty or no conversation context is
open (no current chat study for the modal, no stored filters for the
sidebar), the chat handlers return the state unchanged and issue no
request. -/
theorem c9_guard_noop (t1 t2 : Nat) (s : AppState) :
    (jsTrim s.chatInput = "" ∨ s.currentChatStudy = none →
      sendMessagePre t1 t2 s = (s, none)) ∧
    (jsTrim s.sidebarChatInput = "" ∨ s.currentFilters = none →
      sendSidebarMessagePre t1 t2 s = (s, none)) := by
  constructor
  · intro h
    rcases h with h | h <;> simp [sendMessagePre, h, jsStrFalsy]
  · intro h
    rcases h with h | h
    · simp [sendSidebarMessagePre, h]
    · unfold sendSidebarMessagePre
      rw [h]
      simp

/-- C9 witness: at the initial page state both guards fail and both
handlers are no-ops. -/
theorem c9_witness :
    sendMessagePre 0 1 s0 = (s0, none) ∧ sendSidebarMessagePre 0 1 s0 = (s0, none) :=
  ⟨(c9_guard_noop 0 1 s0).1 (Or.inr rfl), (c9_guard_noop 0 1 s0).2 (Or.inr rfl)⟩

/-- C10: the intervention field of the filter record is produced by
trimming the raw input, splitting on commas, trimming each token and
dropping empty tokens; a whitespace-only input yields the empty list, and
every produced token is nonempty and free of leading or trailing
whitespace. -/
theorem c10_intervention_split :
    (∀ s : AppState, (getFilters s).intervention = interventionList s.form.intervention) ∧
    (∀ raw : String, (∀ c ∈ raw.data, isJsWS c = true) → interventionList raw = []) ∧
    (∀ raw : String, ∀ tok ∈ interventionList raw, tok ≠ "" ∧ jsTrim tok = tok) := by
  refine ⟨fun s => rfl, ?_, ?_⟩
  · intro raw h
    unfold interventionList
    rw [jsTrim_eq_empty raw h]
    rfl
  · intro raw tok htok
    unfold interventionList at htok
    by_cases hc : (jsTrim raw == "") = true
    · rw [if_pos hc] at htok
      cases htok
    · rw [if_neg hc] at htok
      obtain ⟨hmem, hne⟩ := List.mem_filter.mp htok
      obtain ⟨a, _, ha⟩ := List.mem_map.mp hmem
      constructor
      · simpa using hne
      · rw [← ha]
        exact jsTrim_idem a

/-- C10 witness: a whitespace-only input yields the empty list, and a
concrete comma-separated input yields clean tokens. -/
theorem c10_witness :
    (∀ c ∈ ("   " : String).data, isJsWS c = true) ∧
    interventionList "   " = [] ∧
    "a" ∈ interventionList " a , b " ∧
    ("a" ≠ "" ∧ jsTrim "a" = "a") :=
  ⟨by decide, c10_intervention_split.2.1 "   " (by decide), by decide,
    c10_intervention_split.2.2 " a , b " "a" (by decide)⟩

/-- C4: after a successful search response with three total pages, the
pagination container holds exactly three numbered page buttons, for pages
1, 2 and 3, and the active class sits on the current page button and on no
other. -/
theorem c4_pagination_three_pages (p : Int) (data : SearchData) (s : AppState)
    (t : Int) (rs : List Study)
    (hp : p = 1 ∨ p = 2 ∨ p = 3)
    (htp : data.total_pages = some 3) (ht : data.total = some t)
    (hrs : data.results = some rs) :
    (searchStudies p (SearchOutcome.ok data) s).pagination = displayPagination p 3 ∧
    (displayPagination p 3).filterMap pageOf =
      [(1, decide (p = 1)), (2, decide (p = 2)), (3, decide (p = 3))] := by
  obtain ⟨tp, tot, st, res, err⟩ := data
  simp only at htp ht hrs
  subst htp ht hrs
  constructor
  · rfl
  · rcases hp with rfl | rfl | rfl <;> decide

/-- C4 witness: on page 2 of a three-page result the container holds the
three page buttons with only page 2 active. -/
theorem c4_witness :
    (searchStudies 2 (SearchOutcome.ok ⟨some 3, some 5, none, some [], none⟩) s0).pagination
      = displayPagination 2 3 ∧
    (displayPagination 2 3).filterMap pageOf =
      [(1, decide ((2 : Int) = 1)), (2, decide ((2 : Int) = 2)), (3, decide ((2 : Int) = 3))] :=
  c4_pagination_three_pages 2 ⟨some 3, some 5, none, some [], none⟩ s0 5 []
    (Or.inr (Or.inl rfl)) rfl rfl rfl

/-- C6: with the page cursor inside the bounds, every enabled pagination
button targets a page inside 1..totalPages, the Previous button is
disabled exactly on page 1, the Next button is disabled exactly on the
last page, and clearing the filters resets the cursor to 1. -/
theorem c6_pagination_bounds (cp tp : Int) (h1 : 1 ≤ cp) (h2 : cp ≤ tp) :
    (∀ b ∈ displayPagination cp tp, ∀ t, enabledTarget b = some t → 1 ≤ t ∧ t ≤ tp) ∧
    (∀ d t, PagBtn.prev d t ∈ displayPagination cp tp → (d = true ↔ cp = 1)) ∧
    (∀ d t, PagBtn.next d t ∈ displayPagination cp tp → (d = true ↔ cp = tp)) ∧
    (∀ s : AppState, (clearFilters s).currentPage = 1) := by
  refine ⟨?_, ?_, ?_, fun s => rfl⟩
  · intro b hb t ht
    unfold displayPagination at hb
    split at hb
    · cases hb
    · simp only [List.mem_cons, List.mem_append, List.mem_map, List.not_mem_nil, or_false] at hb
      rcases hb with (rfl | ⟨i, hi, rfl⟩) | rfl
      · simp only [enabledTarget] at ht
        split at ht
        · cases ht
        · next hd =>
          cases ht
          have hne : ¬ cp = 1 := by simpa using hd
          omega
      · simp only [enabledTarget] at ht
        cases ht
        unfold pageRange at hi
        obtain ⟨k, hk, hi2⟩ := List.mem_map.mp hi
        rw [List.mem_range] at hk
        subst hi2
        have he : (k : Int) < min tp (cp + 3) - max 1 (cp - 3) + 1 := by
          rcases le_or_lt 0 (min tp (cp + 3) - max 1 (cp - 3) + 1) with h0 | h0
          · rw [← Int.toNat_of_nonneg h0]
            exact_mod_cast hk
          · rw [Int.toNat_of_nonpos h0.le] at hk
            exact absurd hk (Nat.not_lt_zero k)
        have l1 : (1 : Int) ≤ max 1 (cp - 3) := le_max_left _ _
        have l2 : (0 : Int) ≤ (k : Int) := Int.natCast_nonneg k
        have l3 : min tp (cp + 3) ≤ tp := min_le_left _ _
        constructor
        · linarith
        · linarith
      · simp only [enabledTarget] at ht
        split at ht
        · cases ht
        · next hd =>
          cases ht
          have hne : ¬ cp = tp := by simpa using hd
          omega
  · intro d t hmem
    unfold displayPagination at hmem
    split at hmem
    · cases hmem
    · simp only [List.mem_cons, List.mem_append, List.mem_map, List.not_mem_nil, or_false] at hmem
      rcases hmem with (heq | ⟨i, hi, hbad⟩) | heq
      · cases heq
        simp
      · cases hbad
      · cases heq
  · intro d t hmem
    unfold displayPagination at hmem
    split at hmem
    · cases hmem
    · simp only [List.mem_cons, List.mem_append, List.mem_map, List.not_mem_nil, or_false] at hmem
      rcases hmem with (heq | ⟨i, hi, hbad⟩) | heq
      · cases heq
      · cases hbad
      · cases heq
        simp

/-- C6 witness: at page 2 of 3 the theorem applies, an enabled numbered
button stays inside the bounds and clearing filters resets the cursor. -/
theorem c6_witness :
    (1 ≤ (1 : Int) ∧ (1 : Int) ≤ 3) ∧ (clearFilters s0).currentPage = 1 :=
  ⟨(c6_pagination_bounds 2 3 (by decide) (by decide)).1 (PagBtn.page 1 false)
      (by decide) 1 (by decide),
    (c6_pagination_bounds 2 3 (by decide) (by decide)).2.2.2 s0⟩

/-- C1 counterexample: the claim says every request-issuing handler
disables its trigger control while the request is in flight, but the
search handler issues its request with the search control untouched and
still enabled, and the modal chat and protocol report handlers likewise
issue their requests without disabling any control. -/
theorem c1_counterexample :
    ((searchPre 1 s0).1).searchBtnDisabled = false ∧
    ((sendMessagePre 100 101 sReady).2.isSome = true ∧
      ((sendMessagePre 100 101 sReady).1).chatSendDisabled = false) ∧
    ((generateProtocolReportPre sReady).2.isSome = true ∧
      ((generateProtocolReportPre sReady).1).protocolBtnDisabled = false) := by
  decide

/-- C1 (amended): of the ten request-issuing handlers, the sidebar chat
and the six agent features disable their trigger controls before the
request is in flight and re-enable them in a finally block on both the
success and the error path; the search, per-study modal chat and protocol
report handlers do not manipulate any disabled flag at all. -/
theorem c1_amended :
    (∀ (t1 t2 : Nat) (s : AppState), (sendSidebarMessagePre t1 t2 s).2.isSome = true →
      ((sendSidebarMessagePre t1 t2 s).1).sidebarSendDisabled = true ∧
      ((sendSidebarMessagePre t1 t2 s).1).sidebarInputDisabled = true) ∧
    (∀ (lid t3 : Nat) (o : FetchOutcome ChatAllData) (s : AppState),
      (sendSidebarMessagePost lid t3 o s).sidebarSendDisabled = false ∧
      (sendSidebarMessagePost lid t3 o s).sidebarInputDisabled = false) ∧
    (∀ s : AppState, (runAgenticSearchPre s).2.isSome = true →
      ((runAgenticSearchPre s).1).agenticSearchBtnDisabled = true) ∧
    (∀ (o : FetchOutcome AgenticData) (s : AppState),
      (runAgenticSearchPost o s).agenticSearchBtnDisabled = false) ∧
    (∀ s : AppState, (runMultiAgentAnalysisPre s).2.isSome = true →
      ((runMultiAgentAnalysisPre s).1).analysisBtnDisabled = true) ∧
    (∀ (o : FetchOutcome AnalysisData) (s : AppState),
      (runMultiAgentAnalysisPost o s).analysisBtnDisabled = false) ∧
    (∀ s : AppState, (runTrialComparisonPre s).2.isSome = true →
      ((runTrialComparisonPre s).1).compareBtnDisabled = true) ∧
    (∀ (o : FetchOutcome CompareData) (s : AppState),
      (runTrialComparisonPost o s).compareBtnDisabled = false) ∧
    (∀ s : AppState, (runAmendmentRiskPre s).2.isSome = true →
      ((runAmendmentRiskPre s).1).amendmentBtnDisabled = true) ∧
    (∀ (o : FetchOutcome AmendmentData) (s : AppState),
      (runAmendmentRiskPost o s).amendmentBtnDisabled = false) ∧
    (∀ s : AppState, (runDesignPatternsPre s).2.isSome = true →
      ((runDesignPatternsPre s).1).patternBtnDisabled = true) ∧
    (∀ (o : FetchOutcome PatternData) (s : AppState),
      (runDesignPatternsPost o s).patternBtnDisabled = false) ∧
    (∀ s : AppState, (runSoAComposerPre s).2.isSome = true →
      ((runSoAComposerPre s).1).soaBtnDisabled = true) ∧
    (∀ (o : FetchOutcome SoaData) (s : AppState),
      (runSoAComposerPost o s).soaBtnDisabled = false) ∧
    (∀ (p : Int) (s : AppState),
      ((searchPre p s).1).searchBtnDisabled = s.searchBtnDisabled) ∧
    (∀ (t1 t2 : Nat) (s : AppState),
      ((sendMessagePre t1 t2 s).1).chatSendDisabled = s.chatSendDisabled) ∧
    (∀ (lid t3 : Nat) (o : FetchOutcome ChatData) (s : AppState),
      (sendMessagePost lid t3 o s).chatSendDisabled = s.chatSendDisabled) ∧
    (∀ s : AppState,
      ((generateProtocolReportPre s).1).protocolBtnDisabled = s.protocolBtnDisabled) ∧
    (∀ (o : FetchOutcome ProtocolData) (s : AppState),
      (generateProtocolReportPost o s).protocolBtnDisabled = s.protocolBtnDisabled) := by
  refine ⟨?_, fun lid t3 o s => ⟨rfl, rfl⟩, ?_, fun o s => rfl, ?_, fun o s => rfl,
    ?_, fun o s => rfl, ?_, fun o s => rfl, ?_, fun o s => rfl, ?_, fun o s => rfl,
    fun p s => rfl, ?_, ?_, ?_, ?_⟩
  · intro t1 t2 s h
    by_cases hq : (jsTrim s.sidebarChatInput == "") = true
    · simp [sendSidebarMessagePre, hq] at h
    · cases hf : s.currentFilters with
      | none => simp [sendSidebarMessagePre, hq, hf] at h
      | some f =>
        constructor <;> simp [sendSidebarMessagePre, hq, hf, addSidebarMessage]
  · intro s h
    by_cases hq : (jsTrim s.agenticSearchQuery == "") = true
    · simp [runAgenticSearchPre, hq, jsAlert] at h
    · simp [runAgenticSearchPre, hq]
  · intro s h
    by_cases hq : (jsTrim s.analysisNctId == "") = true
    · simp [runMultiAgentAnalysisPre, hq, jsAlert] at h
    · simp [runMultiAgentAnalysisPre, hq]
  · intro s h
    by_cases hq : (jsTrim s.compareNct1 == "" || jsTrim s.compareNct2 == "") = true
    · simp [runTrialComparisonPre, hq, jsAlert] at h
    · simp [runTrialComparisonPre, hq]
  · intro s h
    by_cases hq : (jsTrim s.amendmentNctId == "") = true
    · simp [runAmendmentRiskPre, hq, jsAlert] at h
    · simp [runAmendmentRiskPre, hq]
  · intro s h
    by_cases hq : (jsTrim s.patternCondition == "") = true
    · simp [runDesignPatternsPre, hq, jsAlert] at h
    · simp [runDesignPatternsPre, hq]
  · intro s h
    by_cases hq : (jsTrim s.soaCondition == "") = true
    · simp [runSoAComposerPre, hq, jsAlert] at h
    · simp [runSoAComposerPre, hq]
  · intro t1 t2 s
    simp only [sendMessagePre]
    split
    · rfl
    · rfl
  · intro lid t3 o s
    cases o with
    | throws m => rfl
    | ok data =>
      obtain ⟨err, ans⟩ := data
      cases err with
      | none => rfl
      | some e =>
        by_cases he : (e == "") = true
        · simp [sendMessagePost, he, addModalMessage, removeModalMsg]
        · simp [sendMessagePost, he, addModalMessage, removeModalMsg]
  · intro s
    simp only [generateProtocolReportPre]
    split
    · rfl
    · rfl
  · intro o s
    cases o with
    | throws m => rfl
    | ok data =>
      obtain ⟨err, report⟩ := data
      cases err with
      | none =>
        cases report with
        | none => rfl
        | some r => rfl
      | some e =>
        by_cases he : (e == "") = true
        · cases report with
          | none => simp [generateProtocolReportPost, he, renderReport, showReport, jsAlert]
          | some r => simp [generateProtocolReportPost, he, renderReport, showReport, jsAlert]
        · simp [generateProtocolReportPost, he, renderReport, showReport, jsAlert]

/-- C1 witness: in a state where every input is filled, the sidebar chat
and the agentic search issue their requests with their trigger controls
disabled in the mid-flight state. -/
theorem c1_witness :
    (sendSidebarMessagePre 100 101 sReady).2.isSome = true ∧
    ((sendSidebarMessagePre 100 101 sReady).1).sidebarSendDisabled = true ∧
    (runAgenticSearchPre sReady).2.isSome = true ∧
    ((runAgenticSearchPre sReady).1).agenticSearchBtnDisabled = true :=
  ⟨by decide, (c1_amended.1 100 101 sReady (by decide)).1, by decide,
    c1_amended.2.2.1 sReady (by decide)⟩

/-- C3 counterexample: the claim says every request-issuing operation
surfaces a thrown fetch as the fixed Failed to get response message, but
the search handler alerts the thrown error message itself, which differs
from the fixed text, and no chat bubble carries it. -/
theorem c3_counterexample :
    (searchStudies 1 (SearchOutcome.throws "Failed to fetch") s0).alerts =
      ["Error: Failed to fetch"] ∧
    (searchStudies 1 (SearchOutcome.throws "Failed to fetch") s0).chatMessages.msgs = [] ∧
    (searchStudies 1 (SearchOutcome.throws "Failed to fetch") s0).sidebarMessages.msgs = [] ∧
    ("Error: Failed to fetch" ≠ "Error: Failed to get response.") ∧
    (generateProtocolReportPost (FetchOutcome.throws "Failed to fetch") sReady).alerts =
      sReady.alerts ++ ["Error generating report: Failed to fetch"] := by
  decide

/-- C3 (amended): when the fetch or the JSON parse throws, the modal and
sidebar chat handlers append the fixed Error: Failed to get response.
assistant bubble regardless of the thrown message; the search handler
alerts Error: followed by the thrown message, the protocol report handler
alerts Error generating report: followed by the thrown message, and each
of the six agent features renders the thrown message in its error
fragment. -/
theorem c3_amended (m : String) (lid t3 : Nat) (p : Int) (s : AppState) :
    (sendMessagePost lid t3 (FetchOutcome.throws m) s).chatMessages.msgs =
      s.chatMessages.msgs.eraseP (fun x => x.id == lid) ++
        [Msg.mk t3 "Error: Failed to get response." Role.assistant] ∧
    (sendSidebarMessagePost lid t3 (FetchOutcome.throws m) s).sidebarMessages.msgs =
      s.sidebarMessages.msgs.eraseP (fun x => x.id == lid) ++
        [Msg.mk t3 "Error: Failed to get response." Role.assistant] ∧
    (searchStudies p (SearchOutcome.throws m) s).alerts = s.alerts ++ ["Error: " ++ m] ∧
    (generateProtocolReportPost (FetchOutcome.throws m) s).alerts =
      s.alerts ++ ["Error generating report: " ++ m] ∧
    (runAgenticSearchPost (FetchOutcome.throws m) s).agenticSearchResult = showAgentError m ∧
    (runMultiAgentAnalysisPost (FetchOutcome.throws m) s).analysisResult = showAgentError m ∧
    (runTrialComparisonPost (FetchOutcome.throws m) s).compareResult = showAgentError m ∧
    (runAmendmentRiskPost (FetchOutcome.throws m) s).amendmentResult = showAgentError m ∧
    (runDesignPatternsPost (FetchOutcome.throws m) s).patternResult = showAgentError m ∧
    (runSoAComposerPost (FetchOutcome.throws m) s).soaResult = showAgentError m :=
  ⟨rfl, rfl, rfl, rfl, rfl, rfl, rfl, rfl, rfl, rfl⟩

/-- C5 counterexample: the claim says every response whose body carries an
error field has the error text shown verbatim in the result panel, but the
search handler never inspects the error field: a search body holding only
an error field makes the success path throw a TypeError whose message is
alerted instead, the verbatim text is never displayed, and the results
container and total count are left untouched. -/
theorem c5_counterexample :
    (searchStudies 1 (SearchOutcome.ok ⟨none, none, none, none, some "boom"⟩) s0).alerts =
      ["Error: Cannot read properties of undefined (reading \x27toLocaleString\x27)"] ∧
    "Error: boom" ∉
      (searchStudies 1 (SearchOutcome.ok ⟨none, none, none, none, some "boom"⟩) s0).alerts ∧
    (searchStudies 1 (SearchOutcome.ok ⟨none, none, none, none, some "boom"⟩) s0).resultsContainer =
      ResultsView.empty ∧
    (searchStudies 1 (SearchOutcome.ok ⟨none, none, none, none, some "boom"⟩) s0).totalCount =
      "0" := by
  decide

/-- C5 (amended): for every operation except the paginated search, a
response body whose error field is truthy (and, for the success-flag agent
features, whose success flag is falsy) makes the handler display the error
text verbatim behind an Error: prefix — as an assistant bubble for the two
chats, an alert for the protocol report, and the showAgentError fragment
for the agent features — and the success template of that operation is not
rendered. -/
theorem c5_amended :
    (∀ (lid t3 : Nat) (e : String) (s : AppState) (data : ChatData),
      data.error = some e → e ≠ "" →
      (sendMessagePost lid t3 (FetchOutcome.ok data) s).chatMessages.msgs =
        s.chatMessages.msgs.eraseP (fun x => x.id == lid) ++
          [Msg.mk t3 ("Error: " ++ e) Role.assistant]) ∧
    (∀ (lid t3 : Nat) (e : String) (s : AppState) (data : ChatAllData),
      data.error = some e → e ≠ "" →
      (sendSidebarMessagePost lid t3 (FetchOutcome.ok data) s).sidebarMessages.msgs =
        s.sidebarMessages.msgs.eraseP (fun x => x.id == lid) ++
          [Msg.mk t3 ("Error: " ++ e) Role.assistant]) ∧
    (∀ (e : String) (s : AppState) (data : ProtocolData),
      data.error = some e → e ≠ "" →
      (generateProtocolReportPost (FetchOutcome.ok data) s).alerts =
          s.alerts ++ ["Error: " ++ e] ∧
      (generateProtocolReportPost (FetchOutcome.ok data) s).protocolReportContent =
          s.protocolReportContent ∧
      (generateProtocolReportPost (FetchOutcome.ok data) s).protocolReportVisible =
          s.protocolReportVisible) ∧
    (∀ (e : String) (s : AppState) (data : AgenticData),
      data.error = some e → e ≠ "" → jsTruthyB data.success = false →
      (runAgenticSearchPost (FetchOutcome.ok data) s).agenticSearchResult =
          showAgentError e ∧
      ∀ d, (runAgenticSearchPost (FetchOutcome.ok data) s).agenticSearchResult ≠
          Panel.agenticSuccess d) ∧
    (∀ (e : String) (s : AppState) (data : AnalysisData),
      data.error = some e → e ≠ "" → jsTruthyB data.success = false →
      (runMultiAgentAnalysisPost (FetchOutcome.ok data) s).analysisResult =
          showAgentError e ∧
      ∀ d, (runMultiAgentAnalysisPost (FetchOutcome.ok data) s).analysisResult ≠
          Panel.analysisSuccess d) ∧
    (∀ (e : String) (s : AppState) (data : CompareData),
      data.error = some e → e ≠ "" → jsTruthyB data.success = false →
      (runTrialComparisonPost (FetchOutcome.ok data) s).compareResult =
          showAgentError e ∧
      ∀ d, (runTrialComparisonPost (FetchOutcome.ok data) s).compareResult ≠
          Panel.compareSuccess d) ∧
    (∀ (e : String) (s : AppState) (data : AmendmentData),
      data.error = some e → e ≠ "" → jsTruthyB data.success = false →
      (runAmendmentRiskPost (FetchOutcome.ok data) s).amendmentResult =
          showAgentError e ∧
      ∀ d, (runAmendmentRiskPost (FetchOutcome.ok data) s).amendmentResult ≠
          Panel.amendmentSuccess d) ∧
    (∀ (e : String) (s : AppState) (data : PatternData),
      data.error = some e → e ≠ "" → jsTruthyB data.success = false →
      (runDesignPatternsPost (FetchOutcome.ok data) s).patternResult =
          showAgentError e ∧
      ∀ d, (runDesignPatternsPost (FetchOutcome.ok data) s).patternResult ≠
          Panel.patternSuccess d) ∧
    (∀ (e : String) (s : AppState) (data : SoaData),
      data.error = some e → e ≠ "" → jsTruthyB data.success = false →
      (runSoAComposerPost (FetchOutcome.ok data) s).soaResult =
          showAgentError e ∧
      ∀ d, (runSoAComposerPost (FetchOutcome.ok data) s).soaResult ≠
          Panel.soaSuccess d) := by
  refine ⟨?_, ?_, ?_, ?_, ?_, ?_, ?_, ?_, ?_⟩
  · intro lid t3 e s data h1 h2
    obtain ⟨err, ans⟩ := data
    simp only at h1
    subst h1
    have he2 : (e == "") = false := beq_eq_false_iff_ne.mpr h2
    simp [sendMessagePost, he2, addModalMessage, removeModalMsg]
  · intro lid t3 e s data h1 h2
    obtain ⟨err, ans, info⟩ := data
    simp only at h1
    subst h1
    have he2 : (e == "") = false := beq_eq_false_iff_ne.mpr h2
    simp [sendSidebarMessagePost, he2, addSidebarMessage, removeSidebarMsg]
  · intro e s data h1 h2
    obtain ⟨err, report⟩ := data
    simp only at h1
    subst h1
    have he2 : (e == "") = false := beq_eq_false_iff_ne.mpr h2
    refine ⟨?_, ?_, ?_⟩ <;> simp [generateProtocolReportPost, he2, jsAlert, renderReport, showReport]
  · intro e s data h1 h2 h3
    obtain ⟨succ, err, f3, f4, f5⟩ := data
    simp only at h1 h3
    subst h1
    have he2 : (e == "") = false := beq_eq_false_iff_ne.mpr h2
    constructor
    · simp [runAgenticSearchPost, h3, he2, jsOrElse]
    · intro d
      simp [runAgenticSearchPost, h3, he2, jsOrElse, showAgentError]
  · intro e s data h1 h2 h3
    obtain ⟨succ, err, f3, f4, f5⟩ := data
    simp only at h1 h3
    subst h1
    have he2 : (e == "") = false := beq_eq_false_iff_ne.mpr h2
    constructor
    · simp [runMultiAgentAnalysisPost, h3, he2, jsOrElse]
    · intro d
      simp [runMultiAgentAnalysisPost, h3, he2, jsOrElse, showAgentError]
  · intro e s data h1 h2 h3
    obtain ⟨succ, err, f3, f4, f5⟩ := data
    simp only at h1 h3
    subst h1
    have he2 : (e == "") = false := beq_eq_false_iff_ne.mpr h2
    constructor
    · simp [runTrialComparisonPost, h3, he2, jsOrElse]
    · intro d
      simp [runTrialComparisonPost, h3, he2, jsOrElse, showAgentError]
  · intro e s data h1 h2 h3
    obtain ⟨succ, err, f3, f4, f5⟩ := data
    simp only at h1 h3
    subst h1
    have he2 : (e == "") = false := beq_eq_false_iff_ne.mpr h2
    constructor
    · simp [runAmendmentRiskPost, h3, he2, jsOrElse]
    · intro d
      simp [runAmendmentRiskPost, h3, he2, jsOrElse, showAgentError]
  · intro e s data h1 h2 h3
    obtain ⟨succ, err, f3, f4, f5, f6⟩ := data
    simp only at h1 h3
    subst h1
    have he2 : (e == "") = false := beq_eq_false_iff_ne.mpr h2
    constructor
    · simp [runDesignPatternsPost, h3, he2, jsOrElse]
    · intro d
      simp [runDesignPatternsPost, h3, he2, jsOrElse, showAgentError]
  · intro e s data h1 h2 h3
    obtain ⟨succ, err, f3, f4, f5, f6⟩ := data
    simp only at h1 h3
    subst h1
    have he2 : (e == "") = false := beq_eq_false_iff_ne.mpr h2
    constructor
    · simp [runSoAComposerPost, h3, he2, jsOrElse]
    · intro d
      simp [runSoAComposerPost, h3, he2, jsOrElse, showAgentError]

/-- C5 witness: a modal chat body with the error text boom yields the
assistant bubble Error: boom. -/
theorem c5_witness :
    (sendMessagePost 0 7 (FetchOutcome.ok ⟨some "boom", none⟩) s0).chatMessages.msgs =
      s0.chatMessages.msgs.eraseP (fun x => x.id == 0) ++
        [Msg.mk 7 ("Error: " ++ "boom") Role.assistant] :=
  c5_amended.1 0 7 "boom" s0 ⟨some "boom", none⟩ rfl (by decide)

/-- A state whose modal chat log already holds one user bubble. -/
def sMsg : AppState :=
  { s0 with chatMessages := { placeholder := none, msgs := [⟨1, "hello", Role.user⟩] } }

/-- C2 counterexample: the claim says the per-study modal transcript is
cleared when the modal is closed, but closeChatModal only hides the modal
and forgets the current study: a nonempty transcript survives the
close. -/
theorem c2_counterexample :
    (closeChatModal sMsg).chatModalVisible = false ∧
    (closeChatModal sMsg).currentChatStudy = none ∧
    (closeChatModal sMsg).chatMessages.msgs = [⟨1, "hello", Role.user⟩] ∧
    (closeChatModal sMsg).chatMessages.msgs ≠ [] := by
  decide

/-- C2 (amended): the per-study modal transcript is replaced by its fresh
placeholder when the modal is opened — closeChatModal only hides the modal
and forgets the current study, leaving both transcripts untouched — and
the sidebar transcript is reset by clearFilters.  Between resets a chat
round trip appends a user bubble and a loading bubble with ids minted from
Date.now and then removes the first element carrying the loading id: when
the two Date.now readings fall in distinct milliseconds this removes the
loading bubble and the user and assistant entries are append-only, but
when the two readings coincide both bubbles share one id, so the user
bubble is removed and the loading bubble survives — append-only fails in
that case. -/
theorem c2_amended :
    (∀ (nctId title : String) (s : AppState),
      (openChatModal nctId title s).chatMessages =
        { placeholder := some (modalPlaceholderHtml title), msgs := [] }) ∧
    (∀ s : AppState, (closeChatModal s).chatMessages = s.chatMessages ∧
      (closeChatModal s).sidebarMessages = s.sidebarMessages ∧
      (closeChatModal s).chatModalVisible = false) ∧
    (∀ s : AppState, (clearFilters s).sidebarMessages =
      { placeholder := some sidebarPlaceholderHtml, msgs := [] }) ∧
    (∀ (t1 t2 t3 : Nat) (o : FetchOutcome ChatData) (s : AppState),
      t1 ≠ t2 → (∀ m ∈ s.chatMessages.msgs, m.id ≠ t2) →
      ∃ t, visibleMsgs (sendMessageRun t1 t2 t3 o s).chatMessages =
        visibleMsgs s.chatMessages ++ t) ∧
    (∀ (t t3 : Nat) (o : FetchOutcome ChatData) (s : AppState),
      (jsTrim s.chatInput == "" || jsStrFalsy s.currentChatStudy) = false →
      (∀ m ∈ s.chatMessages.msgs, m.id ≠ t) →
      ∃ txt, (sendMessageRun t t t3 o s).chatMessages.msgs =
        s.chatMessages.msgs ++ [Msg.mk t "Analyzing study data..." Role.loading,
          Msg.mk t3 txt Role.assistant]) ∧
    (∀ (t1 t2 t3 : Nat) (o : FetchOutcome ChatAllData) (s : AppState),
      t1 ≠ t2 → (∀ m ∈ s.sidebarMessages.msgs, m.id ≠ t2) →
      ∃ t, visibleMsgs (sendSidebarMessageRun t1 t2 t3 o s).sidebarMessages =
        visibleMsgs s.sidebarMessages ++ t) ∧
    (∀ (t t3 : Nat) (o : FetchOutcome ChatAllData) (s : AppState) (f : Filters),
      (jsTrim s.sidebarChatInput == "") = false →
      s.currentFilters = some f →
      (∀ m ∈ s.sidebarMessages.msgs, m.id ≠ t) →
      ∃ txt, (sendSidebarMessageRun t t t3 o s).sidebarMessages.msgs =
        s.sidebarMessages.msgs ++
          [Msg.mk t
            ("Analyzing " ++
              (if s.isAdvancedMode then "ALL complete study data"
               else "essential study data") ++ " from filtered studies...")
            Role.loading,
           Msg.mk t3 txt Role.assistant]) := by
  refine ⟨fun nctId title s => rfl, fun s => ⟨rfl, rfl, rfl⟩, fun s => rfl, ?_, ?_, ?_, ?_⟩
  · intro t1 t2 t3 o s hne h
    cases hg : (jsTrim s.chatInput == "" || jsStrFalsy s.currentChatStudy) with
    | true =>
      refine ⟨[], ?_⟩
      have hrun : sendMessageRun t1 t2 t3 o s = s := by
        unfold sendMessageRun
        simp [sendMessagePre, hg]
      rw [hrun, List.append_nil]
    | false =>
      obtain ⟨txt, hr⟩ := sendMessageRun_msgs t1 t2 t3 o s hg hne h
      refine ⟨[Msg.mk t1 (jsTrim s.chatInput) Role.user,
               Msg.mk t3 txt Role.assistant], ?_⟩
      unfold visibleMsgs
      rw [hr, List.filter_append]
      congr 1
  · intro t t3 o s hg h
    exact sendMessageRun_msgs_collide t t3 o s hg h
  · intro t1 t2 t3 o s hne h
    cases hg : (jsTrim s.sidebarChatInput == "") with
    | true =>
      refine ⟨[], ?_⟩
      have hrun : sendSidebarMessageRun t1 t2 t3 o s = s := by
        unfold sendSidebarMessageRun
        simp [sendSidebarMessagePre, hg]
      rw [hrun, List.append_nil]
    | false =>
      cases hf : s.currentFilters with
      | none =>
        refine ⟨[], ?_⟩
        have hrun : sendSidebarMessageRun t1 t2 t3 o s = s := by
          unfold sendSidebarMessageRun
          simp [sendSidebarMessagePre, hg, hf]
        rw [hrun, List.append_nil]
      | some f =>
        obtain ⟨txt, hr⟩ := sendSidebarMessageRun_msgs t1 t2 t3 o s f hg hf hne h
        refine ⟨[Msg.mk t1 (jsTrim s.sidebarChatInput) Role.user,
                 Msg.mk t3 txt Role.assistant], ?_⟩
        unfold visibleMsgs
        rw [hr, List.filter_append]
        congr 1
  · intro t t3 o s f hq hf h
    exact sendSidebarMessageRun_msgs_collide t t3 o s f hq hf h

/-- C2 witness: from the ready state, a round trip with distinct Date.now
readings extends the visible transcript, and a round trip whose two
readings coincide leaves the loading bubble in place of the user
bubble. -/
theorem c2_witness :
    ((100 : Nat) ≠ 101) ∧
    (∀ m ∈ sReady.chatMessages.msgs, m.id ≠ 101) ∧
    (∃ t, visibleMsgs (sendMessageRun 100 101 102
        (FetchOutcome.ok ⟨none, some "fine"⟩) sReady).chatMessages =
      visibleMsgs sReady.chatMessages ++ t) ∧
    ((jsTrim sReady.chatInput == "" || jsStrFalsy sReady.currentChatStudy) = false ∧
     ∃ txt, (sendMessageRun 100 100 102
        (FetchOutcome.ok ⟨none, some "fine"⟩) sReady).chatMessages.msgs =
      sReady.chatMessages.msgs ++ [Msg.mk 100 "Analyzing study data..." Role.loading,
        Msg.mk 102 txt Role.assistant]) :=
  ⟨by decide, by decide,
    c2_amended.2.2.2.1 100 101 102 (FetchOutcome.ok ⟨none, some "fine"⟩) sReady
      (by decide) (by decide),
    by decide,
    c2_amended.2.2.2.2.1 100 102 (FetchOutcome.ok ⟨none, some "fine"⟩) sReady
      (by decide) (by decide)⟩
